import Mathlib

/-!
Verification development for the js-prep repository: shallow embeddings of
its demonstration scripts (object methods, `this` binding, hoisting
examples, Date-based scripts) and proofs about their behaviour under
ECMAScript semantics.
-/

namespace JsPrep

/-! ## JavaScript values (as printed / stored by the demo scripts) -/

/-- A JavaScript value as used by the object-demonstration scripts:
`undefined`, numbers, strings, arrays, plain objects (ordered field
lists), and function values (identified by name). -/
inductive JVal where
  | undef
  | num (n : Int)
  | str (s : String)
  | arr (elems : List JVal)
  | obj (fields : List (String × JVal))
  | fn (tag : String)
  deriving Repr

/-- Template-literal stringification (ECMAScript ToString) for the values
the scripts interpolate: `undefined` renders as "undefined". -/
def jvalToDisplay : JVal → String
  | JVal.undef => "undefined"
  | JVal.num n => toString n
  | JVal.str s => s
  | JVal.arr _ => "[array]"
  | JVal.obj _ => "[object Object]"
  | JVal.fn t => "function " ++ t

/-! ## Date arithmetic (ECMAScript epoch milliseconds)

The scripts call `new Date()`, `Date.now()`, `getTime()`, `getUTCFullYear()`
and `toISOString()`. We embed the proleptic-Gregorian conversions used by
those builtins (days-from-civil and civil-from-days). -/

def msPerDay : Int := 86400000

/-- Days since 1970-01-01 of the civil date y-m-d (month 1..12). -/
def daysFromCivil (y m d : Int) : Int :=
  let y2 := y - (if m ≤ 2 then 1 else 0)
  let era := Int.fdiv y2 400
  let yoe := y2 - era * 400
  let mp := if m > 2 then m - 3 else m + 9
  let doy := Int.fdiv (153 * mp + 2) 5 + d - 1
  let doe := yoe * 365 + Int.fdiv yoe 4 - Int.fdiv yoe 100 + doy
  era * 146097 + doe - 719468

/-- Civil date (year, month, day) of a day count since 1970-01-01. -/
def civilFromDays (z0 : Int) : Int × Int × Int :=
  let z := z0 + 719468
  let era := Int.fdiv z 146097
  let doe := z - era * 146097
  let yoe := Int.fdiv (doe - Int.fdiv doe 1460 + Int.fdiv doe 36524 - Int.fdiv doe 146096) 365
  let y := yoe + era * 400
  let doy := doe - (365 * yoe + Int.fdiv yoe 4 - Int.fdiv yoe 100)
  let mp := Int.fdiv (5 * doy + 2) 153
  let d := doy - Int.fdiv (153 * mp + 2) 5 + 1
  let m := mp + (if mp < 10 then 3 else -9)
  (y + (if m ≤ 2 then 1 else 0), m, d)

/-- `getUTCFullYear` of an epoch-millisecond timestamp. -/
def getUTCFullYear (ms : Int) : Int :=
  (civilFromDays (Int.fdiv ms msPerDay)).1

def pad2 (n : Int) : String :=
  if n < 10 then "0" ++ toString n else toString n

def pad3 (n : Int) : String :=
  if n < 10 then "00" ++ toString n
  else if n < 100 then "0" ++ toString n
  else toString n

def pad4 (n : Int) : String :=
  if n < 10 then "000" ++ toString n
  else if n < 100 then "00" ++ toString n
  else if n < 1000 then "0" ++ toString n
  else toString n

/-- `Date.prototype.toISOString` (also how node prints a `Date`):
"YYYY-MM-DDTHH:MM:SS.mmmZ" in UTC. -/
def msToISO (ms : Int) : String :=
  let day := Int.fdiv ms msPerDay
  let rem := Int.emod ms msPerDay
  let c := civilFromDays day
  let hh := Int.fdiv rem 3600000
  let mi := Int.fdiv (Int.emod rem 3600000) 60000
  let ss := Int.fdiv (Int.emod rem 60000) 1000
  let mr := Int.emod rem 1000
  pad4 c.1 ++ "-" ++ pad2 c.2.1 ++ "-" ++ pad2 c.2.2 ++ "T" ++
    pad2 hh ++ ":" ++ pad2 mi ++ ":" ++ pad2 ss ++ "." ++ pad3 mr ++ "Z"

/-- `new Date(s).getTime()` for the date-only ISO strings the scripts use
("1990-01-01"): interpreted as UTC midnight of that civil date. -/
def parseDateISO (s : String) : Int :=
  match (s.splitOn "-").map (fun t => t.toNat?) with
  | [some y, some m, some d] => daysFromCivil (Int.ofNat y) (Int.ofNat m) (Int.ofNat d) * msPerDay
  | _ => 0

/-! ## The run environment

The scripts are run ad hoc under node. Everything outside the source text
that a run could observe is collected in `RunEnv`: the clock
(`Date.now()` / `new Date()`), the locale-dependent renderers backing
`toLocaleString` and friends, and the never-consulted command line,
process environment and file system. -/

structure RunEnv where
  nowMs : Int
  localeDateTime : Int → String
  localeDate : Int → String
  localeTime : Int → String
  localeNumber : Int → String
  argv : List String
  envVars : List (String × String)
  files : String → Option String

/-- A run environment at clock reading `t` with fixed (trivial) locale
renderers and empty command line / process environment / file system. -/
def runAt (t : Int) : RunEnv :=
  { nowMs := t
    localeDateTime := fun ms => "locale(" ++ toString ms ++ ")"
    localeDate := fun ms => "localeDate(" ++ toString ms ++ ")"
    localeTime := fun ms => "localeTime(" ++ toString ms ++ ")"
    localeNumber := fun n => "localeNum(" ++ toString n ++ ")"
    argv := []
    envVars := []
    files := fun _ => none }

/-- Like `runAt` but with a populated command line, process environment and
file system (none of which any script consults). -/
def runAtWithInputs (t : Int) : RunEnv :=
  { runAt t with
    argv := ["--flag", "input.txt"]
    envVars := [("HOME", "/home/user"), ("LANG", "en_US")]
    files := fun _ => some "file contents" }

/-! ## src/unnamed/part_000, first script: Date logging

    console.log("date=>", new Date());
    console.log("toISOString=>", new Date().toISOString());
    console.log("toLocaleString=>", new Date().toLocaleString());
    console.log("toLocaleDateString=>", new Date().toLocaleDateString());
    console.log("toLocaleTimeString=>", new Date().toLocaleTimeString());
-/

def part000DateOutput (env : RunEnv) : List String :=
  [ "date=> " ++ msToISO env.nowMs
  , "toISOString=> " ++ msToISO env.nowMs
  , "toLocaleString=> " ++ env.localeDateTime env.nowMs
  , "toLocaleDateString=> " ++ env.localeDate env.nowMs
  , "toLocaleTimeString=> " ++ env.localeTime env.nowMs ]

/-! ## src/Objects/playground_methods.js, second script: procedural
age/salary program (lines 115-133 of the concatenated file). -/

/-- `calculate_age(dob)`: `Date.now() - new Date(dob).getTime()`, then the
UTC year of the difference minus 1970, absolute value. -/
def calculate_age (nowMs : Int) (dob : String) : Nat :=
  let diff_ms := nowMs - parseDateISO dob
  (getUTCFullYear diff_ms - 1970).natAbs

/-- `getSalary(monthlySalary, noOfMonths)`:
`(monthlySalary * noOfMonths).toLocaleString()`. -/
def getSalary (env : RunEnv) (monthlySalary noOfMonths : Int) : String :=
  env.localeNumber (monthlySalary * noOfMonths)

def procScriptOutput (env : RunEnv) : List String :=
  [ "Your age is " ++ toString (calculate_age env.nowMs "1990-01-01") ++ " years"
  , "Your salary is " ++ getSalary env 500000 12 ++ " Taka" ]

/-! ## src/unnamed/part_001, first script: class Player

`class Player` stores all four constructor arguments in private fields
(`#name`, `#birthDate`, `#monthlySalary`, `#noOfMonths`) and exposes only
the methods `calculate_age` and `getSalary`; there is no getter for the
name, and private fields are not own properties. -/

structure Player where
  privName : String
  privBirthDate : String
  privMonthlySalary : Int
  privNoOfMonths : Int

def Player.calculate_age (p : Player) (nowMs : Int) : Nat :=
  let diff_ms := nowMs - parseDateISO p.privBirthDate
  (getUTCFullYear diff_ms - 1970).natAbs

def Player.getSalary (p : Player) (env : RunEnv) : String :=
  env.localeNumber (p.privMonthlySalary * p.privNoOfMonths)

/-- `new Player("Mahadi", "1990-01-01", 500000, 12)`. -/
def mahadiPlayer : Player :=
  { privName := "Mahadi"
    privBirthDate := "1990-01-01"
    privMonthlySalary := 500000
    privNoOfMonths := 12 }

/-- Property access `instance.k` on a `Player`: the instance has no own
enumerable properties (all fields are `#`-private), and the prototype
carries only the two methods, so any other name — in particular `name` —
yields `undefined`. -/
def Player.getProp (_p : Player) (k : String) : JVal :=
  if k = "calculate_age" then JVal.fn "calculate_age"
  else if k = "getSalary" then JVal.fn "getSalary"
  else JVal.undef

/-- First output line: `${mahadi.name} age is ${mahadi.calculate_age()} years`. -/
def playerLine1 (env : RunEnv) : String :=
  jvalToDisplay (Player.getProp mahadiPlayer "name") ++
    (" age is " ++ (toString (mahadiPlayer.calculate_age env.nowMs) ++ " years"))

/-- Second output line: `${mahadi.name} salary is ${mahadi.getSalary()} Taka`. -/
def playerLine2 (env : RunEnv) : String :=
  jvalToDisplay (Player.getProp mahadiPlayer "name") ++
    (" salary is " ++ (mahadiPlayer.getSalary env ++ " Taka"))

def playerScriptOutput (env : RunEnv) : List String :=
  [playerLine1 env, playerLine2 env]

/-! ## Plain-object operations (ordered own-property lists)

JavaScript objects enumerate string keys in insertion order (none of the
keys in these scripts are integer-like except the group-by ages, which the
scripts insert in ascending order anyway, so insertion order is the
enumeration order throughout). -/

abbrev JObj := List (String × JVal)

def hasProp (o : JObj) (k : String) : Bool := o.any (fun p => p.1 = k)

def getProp (o : JObj) (k : String) : JVal :=
  match o.find? (fun p => p.1 = k) with
  | some p => p.2
  | none => JVal.undef

/-- `o[k] = v`: overwrite in place (keeping the position of the key) when the
key exists, append otherwise. -/
def setProp (o : JObj) (k : String) (v : JVal) : JObj :=
  if hasProp o k then o.map (fun p => if p.1 = k then (k, v) else p)
  else o ++ [(k, v)]

/-- `Object.assign(target, source)`: copy the own enumerable
properties of the source onto the target, in source enumeration order. -/
def objectAssign (target source : JObj) : JObj :=
  source.foldl (fun t p => setProp t p.1 p.2) target

/-- `Object.entries(o)`. -/
def objectEntries (o : JObj) : JVal :=
  JVal.arr (o.map (fun p => JVal.arr [JVal.str p.1, p.2]))

/-- `Object.fromEntries(pairs)`. -/
def objectFromEntries (pairs : List (String × JVal)) : JObj :=
  pairs.foldl (fun acc p => setProp acc p.1 p.2) []

/-- `Object.values(o)`. -/
def objectValues (o : JObj) : JVal := JVal.arr (o.map (fun p => p.2))

/-- `Object.keys(o)`. -/
def objectKeys (o : JObj) : JVal := JVal.arr (o.map (fun p => JVal.str p.1))

mutual

/-- The node single-line `util.inspect` rendering, as used by `console.log`
for non-string values. -/
def inspect : JVal → String
  | JVal.undef => "undefined"
  | JVal.num n => toString n
  | JVal.str s => "\x27" ++ s ++ "\x27"
  | JVal.arr xs =>
      if xs.isEmpty then "[]"
      else "[ " ++ String.intercalate ", " (inspectList xs) ++ " ]"
  | JVal.obj fs =>
      if fs.isEmpty then "\x7b\x7d"
      else "\x7b " ++ String.intercalate ", " (inspectFields fs) ++ " \x7d"
  | JVal.fn t => "[Function: " ++ t ++ "]"

def inspectList : List JVal → List String
  | [] => []
  | x :: xs => inspect x :: inspectList xs

def inspectFields : List (String × JVal) → List String
  | [] => []
  | (k, v) :: fs => (k ++ ": " ++ inspect v) :: inspectFields fs

end

/-- `console.log(v)` for a single value: strings print raw, everything
else via `inspect`. -/
def consoleRender (v : JVal) : String :=
  match v with
  | JVal.str s => s
  | v => inspect v

/-! ## src/Objects/playground_methods.js, first script (lines 1-114):
Object.assign / entries / fromEntries / values / keys / groupBy demos. -/

def person1Init : JObj :=
  [("firstName", JVal.str "John"), ("lastName", JVal.str "Doe"),
   ("age", JVal.num 50), ("eyeColor", JVal.str "blue")]

def person2Init : JObj :=
  [("firstName", JVal.str "Anne"), ("lastName", JVal.str "Smith")]

/-- The two objects of the Object.assign demo, modelled as the script
heap: `Object.assign(person1, person2)` mutates `person1` in place and
only reads `person2`. -/
structure AssignHeap where
  person1 : JObj
  person2 : JObj

def assignHeap0 : AssignHeap := { person1 := person1Init, person2 := person2Init }

/-- The heap after `Object.assign(person1, person2)`. -/
def assignHeap1 : AssignHeap :=
  { assignHeap0 with person1 := objectAssign assignHeap0.person1 assignHeap0.person2 }

def personEntriesDemo : JObj :=
  [("firstName", JVal.str "John"), ("lastName", JVal.str "Doe"),
   ("age", JVal.num 50), ("eyeColor", JVal.str "blue")]

def fruitsPairs : List (String × JVal) :=
  [("apples", JVal.num 300), ("pears", JVal.num 900), ("bananas", JVal.num 500)]

def myObjFromEntries : JObj := objectFromEntries fruitsPairs

/-! ### The groupBy section (playground_methods.js lines 89-114) -/

structure GPerson where
  name : String
  age : Nat
  deriving DecidableEq, Repr

def peopleList : List GPerson :=
  [⟨"Alice", 25⟩, ⟨"Bob", 30⟩, ⟨"Charlie", 25⟩, ⟨"David", 30⟩, ⟨"Eve", 35⟩]

def hasGroup (g : List (Nat × List GPerson)) (k : Nat) : Bool :=
  g.any (fun p => p.1 = k)

def lookupGroup (g : List (Nat × List GPerson)) (k : Nat) : List GPerson :=
  match g.find? (fun p => p.1 = k) with
  | some p => p.2
  | none => []

/-- `acc[k].push(x)`. -/
def pushGroup (g : List (Nat × List GPerson)) (k : Nat) (x : GPerson) :
    List (Nat × List GPerson) :=
  g.map (fun p => if p.1 = k then (p.1, p.2 ++ [x]) else p)

/-- The reduce callback:
`if (!acc[person.age]) acc[person.age] = []; acc[person.age].push(person); return acc`. -/
def reduceCallback (acc : List (Nat × List GPerson)) (person : GPerson) :
    List (Nat × List GPerson) :=
  let acc1 := if hasGroup acc person.age then acc else acc ++ [(person.age, [])]
  pushGroup acc1 person.age person

/-- `people.reduce(callback, {})`. -/
def groupByAge : List (Nat × List GPerson) := peopleList.foldl reduceCallback []

/-- `Object.groupBy(items, f)` (ECMAScript GroupBy): append each element
to the group of its key, creating the group at the end when absent. -/
def objectGroupBy (l : List GPerson) (f : GPerson → Nat) : List (Nat × List GPerson) :=
  l.foldl
    (fun acc x =>
      if hasGroup acc (f x) then pushGroup acc (f x) x else acc ++ [(f x, [x])])
    []

/-- `const grouped = Object.groupBy(people, (person) => person.age)`. -/
def groupedPeople : List (Nat × List GPerson) :=
  objectGroupBy peopleList (fun person => person.age)

/-! ## src/Objects/playground_this.js: `this` binding demonstrations -/

/-- Implicit binding, Ex-1: `person.greet()` logs "Hello, ${this.name}"
with `this` = the receiver. -/
def greet (self : JObj) : String :=
  "Hello, " ++ jvalToDisplay (getProp self "name")

def personThis : JObj := [("name", JVal.str "John")]

/-- The method attached by `printPlayerNameFunction` (and the inline
`printName` methods of Ex-3): logs `this.name`. -/
def printPlayerName (self : JObj) : String :=
  consoleRender (getProp self "name")

def sakibObj : JObj := [("name", JVal.str "Sakib")]

def tamimObj : JObj := [("name", JVal.str "Tamim")]

/-- `printPlayerNameFunction(obj)`: attaches the `printPlayerName` method. -/
def printPlayerNameFunction (obj : JObj) : JObj :=
  setProp obj "printPlayerName" (JVal.fn "printPlayerName")

/-- The Ex-3 factory `Person_3(name, age)`. -/
def Person_3 (name : String) (age : Int) : JObj :=
  [("name", JVal.str name), ("age", JVal.num age),
   ("printName", JVal.fn "printName"),
   ("father", JVal.obj [("name", JVal.str "John"), ("printName", JVal.fn "printName")])]

def mahadiThis : JObj := Person_3 "Mahadi" 20

/-- The father object inside `mahadi`. -/
def mahadiFather : JObj :=
  match getProp mahadiThis "father" with
  | JVal.obj o => o
  | _ => []

/-! ### Explicit binding: call / apply / bind -/

/-- `const printName = function (v1, v2) \x7b
console.log(`Mr. ${this.name} is ${v1} and ${v2}`); \x7d` — the line it
logs, as a function of its `this` and its two arguments. -/
def printName (thisObj : JObj) (v1 v2 : JVal) : String :=
  "Mr. " ++ jvalToDisplay (getProp thisObj "name") ++
    (" is " ++ (jvalToDisplay v1 ++ (" and " ++ jvalToDisplay v2)))

def nazmulObj : JObj := [("name", JVal.str "Nazmul"), ("age", JVal.num 25)]

def attribute_1 : JVal := JVal.str "Handome"

def attribute_2 : JVal := JVal.str "Smart"

def attributesArr : List JVal := [attribute_1, attribute_2]

/-- `f.call(thisArg, a1, a2)`. -/
def fnCall (f : JObj → JVal → JVal → String) (thisArg : JObj) (a1 a2 : JVal) : String :=
  f thisArg a1 a2

/-- `f.apply(thisArg, args)`: arguments are taken from the array, missing
ones becoming `undefined`. -/
def fnApply (f : JObj → JVal → JVal → String) (thisArg : JObj) (args : List JVal) : String :=
  f thisArg (args.getD 0 JVal.undef) (args.getD 1 JVal.undef)

/-- `f.bind(thisArg)`: the bound function. -/
def fnBind (f : JObj → JVal → JVal → String) (thisArg : JObj) : JVal → JVal → String :=
  fun a1 a2 => f thisArg a1 a2

/-! ### New binding and window binding -/

/-- `new Employee(name, profession)` (constructor-function form). -/
def employeeNew (name profession : String) : JObj :=
  [("name", JVal.str name), ("profession", JVal.str profession)]

def employee1This : JObj := employeeNew "Nazmul" "Software Engineer"

/-- `windowPrintName()`: a plain (non-strict) call binds `this` to the
global object, whose `name` property is absent in node, so it logs
`undefined`. -/
def windowPrintName (globalThis : JObj) : String :=
  consoleRender (getProp globalThis "name")

/-- the node global object, as far as these scripts observe it: it has no
`name` property. -/
def nodeGlobalThis : JObj := []

/-- The full standard output of playground_this.js, in source order. -/
def thisScriptOutput : List String :=
  [ greet personThis
  , printPlayerName (printPlayerNameFunction sakibObj)
  , printPlayerName (printPlayerNameFunction tamimObj)
  , printPlayerName mahadiThis
  , printPlayerName mahadiFather
  , fnCall printName nazmulObj attribute_1 attribute_2
  , fnApply printName nazmulObj attributesArr
  , fnBind printName nazmulObj attribute_1 attribute_2
  , "Employee " ++ inspect (JVal.obj employee1This)
  , windowPrintName nodeGlobalThis ]

/-! ## A small interpreter for the hoisting scripts

src/unnamed/part_001 (BASIC EXAMPLES, lines 408-495) and
src/unnamed/part_002 are top-level scripts exercising hoisting, the
temporal dead zone, duplicate declarations, `const`, and `setTimeout`
closures. We embed exactly the statement and expression forms those two
scripts use, with ECMAScript script semantics: a static early-error pass
(duplicate lexical declarations, lexical/var clashes), hoisting
(function declarations fully, `var` to `undefined`, `let`/`const` into
the TDZ), mutable bindings in a store so closures share or copy loop
variables, and a task queue run after the synchronous statements. -/

inductive DeclKind where
  | dvar
  | dlet
  | dconst
  deriving DecidableEq, Repr

inductive Expr where
  | num (n : Int)
  | str (s : String)
  | ident (x : String)
  | objLit (fields : List (String × Expr))
  | propAccess (x : String) (field : String)
  | typeofIdent (x : String)
  | call (f : String) (args : List Expr)
  deriving Repr

inductive Stmt where
  | decl (k : DeclKind) (x : String) (initE : Option Expr)
  | funDecl (x : String) (params : List String) (body : List Stmt)
  | assign (x : String) (e : Expr)
  | propAssign (x : String) (field : String) (e : Expr)
  | exprStmt (e : Expr)
  | log (args : List Expr)
  | ifTrue (body : List Stmt)
  | forVar (x : String) (bound : Int) (body : List Stmt)
  | forLet (x : String) (bound : Int) (body : List Stmt)
  | setTimeout0 (body : List Stmt)
  | ret (e : Expr)
  | iife (body : List Stmt)
  deriving Repr

/-- A scope maps names to store addresses. -/
abbrev Scope := List (String × Nat)

/-- An environment is a stack of scopes, innermost first. -/
abbrev REnv := List Scope

inductive RVal where
  | undef
  | num (n : Int)
  | str (s : String)
  | closure (params : List String) (body : List Stmt) (env : REnv)
  | ref (addr : Nat)
  deriving Repr

/-- A store binding: in the temporal dead zone, or initialised. -/
inductive Binding where
  | tdz (k : DeclKind)
  | init (k : DeclKind) (v : RVal)
  deriving Repr

inductive JsErr where
  | refErr (msg : String)
  | typeErr (msg : String)
  | synErr (msg : String)
  | outOfGas
  | unsupported (msg : String)
  deriving DecidableEq, Repr

structure RState where
  store : List Binding
  heap : List (List (String × RVal))
  queue : List (List Stmt × REnv)
  deriving Repr

/-! ### Syntactic declaration collectors -/

mutual

/-- `var`-declared names of a statement, descending into blocks and loop
bodies but not across function boundaries. -/
def varNamesStmt : Stmt → List String
  | Stmt.decl DeclKind.dvar x _ => [x]
  | Stmt.decl _ _ _ => []
  | Stmt.ifTrue body => varNamesStmts body
  | Stmt.forVar x _ body => x :: varNamesStmts body
  | Stmt.forLet _ _ body => varNamesStmts body
  | _ => []

def varNamesStmts : List Stmt → List String
  | [] => []
  | s :: ss => varNamesStmt s ++ varNamesStmts ss

end

/-- The function declarations at the top level of a scope body. -/
def funDeclsTop (ss : List Stmt) : List (String × List String × List Stmt) :=
  ss.filterMap (fun s => match s with
    | Stmt.funDecl x ps b => some (x, ps, b)
    | _ => none)

/-- The `let`/`const` declarations at the top level of a scope body. -/
def lexDeclsTop (ss : List Stmt) : List (String × DeclKind) :=
  ss.filterMap (fun s => match s with
    | Stmt.decl DeclKind.dlet x _ => some (x, DeclKind.dlet)
    | Stmt.decl DeclKind.dconst x _ => some (x, DeclKind.dconst)
    | _ => none)

def lexNamesTop (ss : List Stmt) : List String := (lexDeclsTop ss).map (fun p => p.1)

/-- The first lexically declared name that is declared twice or clashes
with a `var` declaration of the same scope (an ECMAScript early error). -/
def dupOrClash (lex vars : List String) : Option String :=
  lex.find? (fun n => decide (1 < lex.count n) || vars.contains n)

mutual

def stmtsCheck : List Stmt → Option String
  | [] => none
  | s :: ss =>
    match stmtCheck s with
    | some n => some n
    | none => stmtsCheck ss

/-- Early-error check of one statement: each nested scope body is checked
for duplicate/clashing declarations and then recursively. -/
def stmtCheck : Stmt → Option String
  | Stmt.ifTrue body =>
    (match dupOrClash (lexNamesTop body) (varNamesStmts body) with
     | some n => some n
     | none => stmtsCheck body)
  | Stmt.forVar _ _ body =>
    (match dupOrClash (lexNamesTop body) (varNamesStmts body) with
     | some n => some n
     | none => stmtsCheck body)
  | Stmt.forLet _ _ body =>
    (match dupOrClash (lexNamesTop body) (varNamesStmts body) with
     | some n => some n
     | none => stmtsCheck body)
  | Stmt.funDecl _ _ body =>
    (match dupOrClash (lexNamesTop body) (varNamesStmts body) with
     | some n => some n
     | none => stmtsCheck body)
  | Stmt.setTimeout0 body =>
    (match dupOrClash (lexNamesTop body) (varNamesStmts body) with
     | some n => some n
     | none => stmtsCheck body)
  | Stmt.iife body =>
    (match dupOrClash (lexNamesTop body) (varNamesStmts body) with
     | some n => some n
     | none => stmtsCheck body)
  | _ => none

end

/-- Static early-error check of a whole scope body: the ECMAScript
script-level duplicate-declaration errors, then the nested scopes. -/
def scopeCheck (ss : List Stmt) : Option String :=
  match dupOrClash (lexNamesTop ss) (varNamesStmts ss) with
  | some n => some n
  | none => stmtsCheck ss

/-- Keep the first occurrence of each name. -/
def dedupNames : List String → List String
  | [] => []
  | x :: xs => x :: (dedupNames xs).filter (fun y => y ≠ x)

/-! ### Store, heap and environment operations -/

def lookupEnv (env : REnv) (x : String) : Option Nat :=
  env.findSome? (fun sc => (sc.find? (fun p => p.1 = x)).map (fun p => p.2))

def readB (st : RState) (a : Nat) : Option Binding := st.store.get? a

def writeB (st : RState) (a : Nat) (b : Binding) : RState :=
  { st with store := st.store.set a b }

def allocB (st : RState) (b : Binding) : RState × Nat :=
  ({ st with store := st.store ++ [b] }, st.store.length)

def allocObj (st : RState) (fields : List (String × RVal)) : RState × Nat :=
  ({ st with heap := st.heap ++ [fields] }, st.heap.length)

def getFieldR (o : List (String × RVal)) (k : String) : RVal :=
  match o.find? (fun p => p.1 = k) with
  | some p => p.2
  | none => RVal.undef

def setFieldR (o : List (String × RVal)) (k : String) (v : RVal) : List (String × RVal) :=
  if o.any (fun p => p.1 = k) then o.map (fun p => if p.1 = k then (k, v) else p)
  else o ++ [(k, v)]

def typeName : RVal → String
  | RVal.undef => "undefined"
  | RVal.num _ => "number"
  | RVal.str _ => "string"
  | RVal.closure _ _ _ => "function"
  | RVal.ref _ => "object"

def rvalShallow : RVal → JVal
  | RVal.undef => JVal.undef
  | RVal.num n => JVal.num n
  | RVal.str s => JVal.str s
  | RVal.closure _ _ _ => JVal.fn "anonymous"
  | RVal.ref _ => JVal.str "[Object]"

/-- `console.log` rendering of an interpreter value: strings print raw,
objects through `inspect`. -/
def renderRVal (st : RState) : RVal → String
  | RVal.str s => s
  | RVal.ref a =>
    (match st.heap.get? a with
     | some fields => inspect (JVal.obj (fields.map (fun p => (p.1, rvalShallow p.2))))
     | none => "[Object]")
  | v => jvalToDisplay (rvalShallow v)

/-! ### Hoisting (declaration instantiation) -/

/-- Instantiate a function or script scope: parameters get their argument
values, `var`-declared names (not shadowing a parameter or function
declaration) are bound to `undefined`, function declarations are bound to
their closures (later declarations winning), and top-level `let`/`const`
names enter the temporal dead zone. -/
def hoistScope (st : RState) (env : REnv) (params : List String) (args : List RVal)
    (body : List Stmt) : RState × Scope :=
  let funs := funDeclsTop body
  let funNames := dedupNames (funs.map (fun f => f.1))
  let varns := (dedupNames (varNamesStmts body)).filter
      (fun x => !(params.contains x || funNames.contains x))
  let lexs := lexDeclsTop body
  let acc0 := params.enum.foldl
      (fun (acc : RState × Scope) pi =>
        let r := allocB acc.1 (Binding.init DeclKind.dvar (args.getD pi.1 RVal.undef))
        (r.1, acc.2 ++ [(pi.2, r.2)]))
      (st, ([] : Scope))
  let acc1 := varns.foldl
      (fun (acc : RState × Scope) x =>
        let r := allocB acc.1 (Binding.init DeclKind.dvar RVal.undef)
        (r.1, acc.2 ++ [(x, r.2)]))
      acc0
  let acc2 := funNames.foldl
      (fun (acc : RState × Scope) x =>
        let r := allocB acc.1 (Binding.init DeclKind.dvar RVal.undef)
        (r.1, acc.2 ++ [(x, r.2)]))
      acc1
  let acc3 := lexs.foldl
      (fun (acc : RState × Scope) xl =>
        let r := allocB acc.1 (Binding.tdz xl.2)
        (r.1, acc.2 ++ [(xl.1, r.2)]))
      acc2
  let scope := acc3.2
  let stFinal := funs.foldl
      (fun (s : RState) f =>
        match lookupEnv [scope] f.1 with
        | some a => writeB s a (Binding.init DeclKind.dvar (RVal.closure f.2.1 f.2.2 (scope :: env)))
        | none => s)
      acc3.1
  (stFinal, scope)

/-- Instantiate a block scope: only the `let`/`const` names of the block, in
the temporal dead zone. -/
def hoistBlock (st : RState) (body : List Stmt) : RState × Scope :=
  (lexDeclsTop body).foldl
    (fun (acc : RState × Scope) xl =>
      let r := allocB acc.1 (Binding.tdz xl.2)
      (r.1, acc.2 ++ [(xl.1, r.2)]))
    (st, ([] : Scope))

/-! ### The fueled evaluator -/

inductive Task where
  | expr (e : Expr)
  | exprList (es : List Expr)
  | stmt (s : Stmt)
  | stmtList (ss : List Stmt)
  | loopIter (isLet : Bool) (x : String) (addr : Nat) (bound : Int) (body : List Stmt)
  deriving Repr

inductive TRes where
  | val (v : RVal)
  | vals (vs : List RVal)
  | done (r : Option RVal)
  deriving Repr

/-- One fueled evaluation: expressions yield `TRes.val`, expression lists
`TRes.vals`, statements and statement lists `TRes.done` (with `some` for
an early `return`). Alongside the new state it returns the lines the task
printed. -/
def step : Nat → RState → REnv → Task → Except JsErr (RState × List String × TRes)
  | 0, _, _, _ => Except.error JsErr.outOfGas
  | Nat.succ fuel, st, env, task =>
    match task with
    | Task.expr e =>
      match e with
      | Expr.num n => Except.ok (st, [], TRes.val (RVal.num n))
      | Expr.str s => Except.ok (st, [], TRes.val (RVal.str s))
      | Expr.ident x =>
        (match lookupEnv env x with
         | none => Except.error (JsErr.refErr (x ++ " is not defined"))
         | some a =>
           match readB st a with
           | some (Binding.tdz _) =>
             Except.error (JsErr.refErr ("Cannot access " ++ x ++ " before initialization"))
           | some (Binding.init _ v) => Except.ok (st, [], TRes.val v)
           | none => Except.error (JsErr.unsupported "dangling address"))
      | Expr.objLit fields =>
        (match step fuel st env (Task.exprList (fields.map (fun p => p.2))) with
         | Except.error er => Except.error er
         | Except.ok (st1, out, TRes.vals vs) =>
           let r := allocObj st1 ((fields.map (fun p => p.1)).zip vs)
           Except.ok (r.1, out, TRes.val (RVal.ref r.2))
         | Except.ok _ => Except.error (JsErr.unsupported "objLit"))
      | Expr.propAccess x f =>
        (match step fuel st env (Task.expr (Expr.ident x)) with
         | Except.error er => Except.error er
         | Except.ok (st1, out, TRes.val (RVal.ref a)) =>
           (match st1.heap.get? a with
            | some fields => Except.ok (st1, out, TRes.val (getFieldR fields f))
            | none => Except.error (JsErr.unsupported "dangling object"))
         | Except.ok _ => Except.error (JsErr.typeErr "Cannot read properties of non-object"))
      | Expr.typeofIdent x =>
        (match lookupEnv env x with
         | none => Except.ok (st, [], TRes.val (RVal.str "undefined"))
         | some a =>
           match readB st a with
           | some (Binding.tdz _) =>
             Except.error (JsErr.refErr ("Cannot access " ++ x ++ " before initialization"))
           | some (Binding.init _ v) => Except.ok (st, [], TRes.val (RVal.str (typeName v)))
           | none => Except.error (JsErr.unsupported "dangling address"))
      | Expr.call f args =>
        (match step fuel st env (Task.expr (Expr.ident f)) with
         | Except.error er => Except.error er
         | Except.ok (st1, out1, TRes.val (RVal.closure ps fbody cenv)) =>
           (match step fuel st1 env (Task.exprList args) with
            | Except.error er => Except.error er
            | Except.ok (st2, out2, TRes.vals vs) =>
              let r := hoistScope st2 cenv ps vs fbody
              (match step fuel r.1 (r.2 :: cenv) (Task.stmtList fbody) with
               | Except.error er => Except.error er
               | Except.ok (st3, out3, TRes.done ret) =>
                 Except.ok (st3, out1 ++ out2 ++ out3, TRes.val (ret.getD RVal.undef))
               | Except.ok _ => Except.error (JsErr.unsupported "call body"))
            | Except.ok _ => Except.error (JsErr.unsupported "call args"))
         | Except.ok (_, _, TRes.val _) =>
           Except.error (JsErr.typeErr (f ++ " is not a function"))
         | Except.ok _ => Except.error (JsErr.unsupported "callee"))
    | Task.exprList es =>
      (match es with
       | [] => Except.ok (st, [], TRes.vals [])
       | e :: rest =>
         match step fuel st env (Task.expr e) with
         | Except.error er => Except.error er
         | Except.ok (st1, out1, TRes.val v) =>
           (match step fuel st1 env (Task.exprList rest) with
            | Except.error er => Except.error er
            | Except.ok (st2, out2, TRes.vals vs) =>
              Except.ok (st2, out1 ++ out2, TRes.vals (v :: vs))
            | Except.ok _ => Except.error (JsErr.unsupported "exprList"))
         | Except.ok _ => Except.error (JsErr.unsupported "exprList head"))
    | Task.stmt s =>
      (match s with
       | Stmt.decl DeclKind.dvar x initE =>
         (match initE with
          | none => Except.ok (st, [], TRes.done none)
          | some e =>
            match step fuel st env (Task.expr e) with
            | Except.error er => Except.error er
            | Except.ok (st1, out, TRes.val v) =>
              (match lookupEnv env x with
               | some a => Except.ok (writeB st1 a (Binding.init DeclKind.dvar v), out, TRes.done none)
               | none => Except.error (JsErr.unsupported "unhoisted var"))
            | Except.ok _ => Except.error (JsErr.unsupported "var init"))
       | Stmt.decl k x initE =>
         (match lookupEnv env x with
          | none => Except.error (JsErr.unsupported "unhoisted lexical")
          | some a =>
            match initE with
            | none => Except.ok (writeB st a (Binding.init k RVal.undef), [], TRes.done none)
            | some e =>
              match step fuel st env (Task.expr e) with
              | Except.error er => Except.error er
              | Except.ok (st1, out, TRes.val v) =>
                Except.ok (writeB st1 a (Binding.init k v), out, TRes.done none)
              | Except.ok _ => Except.error (JsErr.unsupported "lexical init"))
       | Stmt.funDecl _ _ _ => Except.ok (st, [], TRes.done none)
       | Stmt.assign x e =>
         (match step fuel st env (Task.expr e) with
          | Except.error er => Except.error er
          | Except.ok (st1, out, TRes.val v) =>
            (match lookupEnv env x with
             | none => Except.error (JsErr.refErr (x ++ " is not defined"))
             | some a =>
               match readB st1 a with
               | some (Binding.tdz _) =>
                 Except.error (JsErr.refErr ("Cannot access " ++ x ++ " before initialization"))
               | some (Binding.init k _) =>
                 if k = DeclKind.dconst then
                   Except.error (JsErr.typeErr "Assignment to constant variable.")
                 else Except.ok (writeB st1 a (Binding.init k v), out, TRes.done none)
               | none => Except.error (JsErr.unsupported "dangling address"))
          | Except.ok _ => Except.error (JsErr.unsupported "assign"))
       | Stmt.propAssign x f e =>
         (match step fuel st env (Task.expr (Expr.ident x)) with
          | Except.error er => Except.error er
          | Except.ok (st1, out1, TRes.val (RVal.ref a)) =>
            (match step fuel st1 env (Task.expr e) with
             | Except.error er => Except.error er
             | Except.ok (st2, out2, TRes.val v) =>
               (match st2.heap.get? a with
                | some fields =>
                  Except.ok ({ st2 with heap := st2.heap.set a (setFieldR fields f v) },
                    out1 ++ out2, TRes.done none)
                | none => Except.error (JsErr.unsupported "dangling object"))
             | Except.ok _ => Except.error (JsErr.unsupported "propAssign value"))
          | Except.ok _ => Except.error (JsErr.typeErr "Cannot set properties of non-object"))
       | Stmt.exprStmt e =>
         (match step fuel st env (Task.expr e) with
          | Except.error er => Except.error er
          | Except.ok (st1, out, TRes.val _) => Except.ok (st1, out, TRes.done none)
          | Except.ok _ => Except.error (JsErr.unsupported "exprStmt"))
       | Stmt.log args =>
         (match step fuel st env (Task.exprList args) with
          | Except.error er => Except.error er
          | Except.ok (st1, out, TRes.vals vs) =>
            Except.ok (st1, out ++ [String.intercalate " " (vs.map (renderRVal st1))], TRes.done none)
          | Except.ok _ => Except.error (JsErr.unsupported "log"))
       | Stmt.ifTrue body =>
         let r := hoistBlock st body
         step fuel r.1 (r.2 :: env) (Task.stmtList body)
       | Stmt.forVar x bound body =>
         (match lookupEnv env x with
          | none => Except.error (JsErr.unsupported "unhoisted loop var")
          | some a =>
            step fuel (writeB st a (Binding.init DeclKind.dvar (RVal.num 0))) env
              (Task.loopIter false x a bound body))
       | Stmt.forLet x bound body =>
         let r := allocB st (Binding.init DeclKind.dlet (RVal.num 0))
         step fuel r.1 env (Task.loopIter true x r.2 bound body)
       | Stmt.setTimeout0 body =>
         Except.ok ({ st with queue := st.queue ++ [(body, env)] }, [], TRes.done none)
       | Stmt.ret e =>
         (match step fuel st env (Task.expr e) with
          | Except.error er => Except.error er
          | Except.ok (st1, out, TRes.val v) => Except.ok (st1, out, TRes.done (some v))
          | Except.ok _ => Except.error (JsErr.unsupported "return"))
       | Stmt.iife body =>
         let r := hoistScope st env [] [] body
         (match step fuel r.1 (r.2 :: env) (Task.stmtList body) with
          | Except.error er => Except.error er
          | Except.ok (st1, out, TRes.done _) => Except.ok (st1, out, TRes.done none)
          | Except.ok _ => Except.error (JsErr.unsupported "iife")))
    | Task.stmtList ss =>
      (match ss with
       | [] => Except.ok (st, [], TRes.done none)
       | s :: rest =>
         match step fuel st env (Task.stmt s) with
         | Except.error er => Except.error er
         | Except.ok (st1, out1, TRes.done (some v)) =>
           Except.ok (st1, out1, TRes.done (some v))
         | Except.ok (st1, out1, TRes.done none) =>
           (match step fuel st1 env (Task.stmtList rest) with
            | Except.error er => Except.error er
            | Except.ok (st2, out2, TRes.done r) =>
              Except.ok (st2, out1 ++ out2, TRes.done r)
            | Except.ok _ => Except.error (JsErr.unsupported "stmtList"))
         | Except.ok _ => Except.error (JsErr.unsupported "stmtList head"))
    | Task.loopIter isLet x a bound body =>
      (match readB st a with
       | some (Binding.init _ (RVal.num i)) =>
         if i < bound then
           let ienv : REnv := if isLet then ([(x, a)] :: env) else env
           let r := hoistBlock st body
           match step fuel r.1 (r.2 :: ienv) (Task.stmtList body) with
           | Except.error er => Except.error er
           | Except.ok (st1, out1, TRes.done (some v)) =>
             Except.ok (st1, out1, TRes.done (some v))
           | Except.ok (st1, out1, TRes.done none) =>
             if isLet then
               let r2 := allocB st1 (Binding.init DeclKind.dlet (RVal.num (i + 1)))
               (match step fuel r2.1 env (Task.loopIter true x r2.2 bound body) with
                | Except.error er => Except.error er
                | Except.ok (st2, out2, res) => Except.ok (st2, out1 ++ out2, res))
             else
               (match step fuel (writeB st1 a (Binding.init DeclKind.dvar (RVal.num (i + 1)))) env
                   (Task.loopIter false x a bound body) with
                | Except.error er => Except.error er
                | Except.ok (st2, out2, res) => Except.ok (st2, out1 ++ out2, res))
           | Except.ok _ => Except.error (JsErr.unsupported "loop body")
         else Except.ok (st, [], TRes.done none)
       | _ => Except.error (JsErr.unsupported "loop counter"))

/-- Run the task queue (the `setTimeout` callbacks) in FIFO order, after
the synchronous portion of the script has finished. -/
def flushQueue : Nat → RState → Except JsErr (RState × List String)
  | 0, _ => Except.error JsErr.outOfGas
  | Nat.succ fuel, st =>
    match st.queue with
    | [] => Except.ok (st, [])
    | (body, env) :: rest =>
      match step fuel { st with queue := rest } env (Task.stmtList body) with
      | Except.error er => Except.error er
      | Except.ok (st1, out1, _) =>
        match flushQueue fuel st1 with
        | Except.error er => Except.error er
        | Except.ok (st2, out2) => Except.ok (st2, out1 ++ out2)

def gas : Nat := 2000

/-- Run a script: the static early-error check (a `SyntaxError` executes
nothing), then global declaration instantiation, then the top-level
statements in source order, then the task queue. Returns the synchronous
output and the queued (asynchronous) output separately. -/
def runScriptParts (body : List Stmt) : Except JsErr (List String × List String) :=
  match scopeCheck body with
  | some n => Except.error (JsErr.synErr ("Identifier " ++ n ++ " has already been declared"))
  | none =>
    let st0 : RState := { store := [], heap := [], queue := [] }
    let r := hoistScope st0 [] [] [] body
    match step gas r.1 [r.2] (Task.stmtList body) with
    | Except.error er => Except.error er
    | Except.ok (st1, out1, _) =>
      match flushQueue gas st1 with
      | Except.error er => Except.error er
      | Except.ok (_, out2) => Except.ok (out1, out2)

/-- The full standard output of a script. -/
def runScript (body : List Stmt) : Except JsErr (List String) :=
  (runScriptParts body).map (fun p => p.1 ++ p.2)

/-- Only the synchronous (pre-queue) output of a script. -/
def runScriptSyncOut (body : List Stmt) : Except JsErr (List String) :=
  (runScriptParts body).map (fun p => p.1)

/-! ### src/unnamed/part_001 lines 408-495: the BASIC EXAMPLES script -/

def basicExamplesAst : List Stmt :=
  [ -- 1. console.log(a); var a = 5;
    Stmt.log [Expr.ident "a"],
    Stmt.decl DeclKind.dvar "a" (some (Expr.num 5)),
    -- 2. console.log(b); let b = 10;
    Stmt.log [Expr.ident "b"],
    Stmt.decl DeclKind.dlet "b" (some (Expr.num 10)),
    -- 3. var x = 1; if (true) { var x = 2; console.log(x); } console.log(x);
    Stmt.decl DeclKind.dvar "x" (some (Expr.num 1)),
    Stmt.ifTrue
      [ Stmt.decl DeclKind.dvar "x" (some (Expr.num 2)),
        Stmt.log [Expr.ident "x"] ],
    Stmt.log [Expr.ident "x"],
    -- 4. let y = 1; if (true) { let y = 2; console.log(y); } console.log(y);
    Stmt.decl DeclKind.dlet "y" (some (Expr.num 1)),
    Stmt.ifTrue
      [ Stmt.decl DeclKind.dlet "y" (some (Expr.num 2)),
        Stmt.log [Expr.ident "y"] ],
    Stmt.log [Expr.ident "y"],
    -- 5. for (var i = 0; i < 3; i++) { setTimeout(() => console.log(i), 0); }
    Stmt.forVar "i" 3 [Stmt.setTimeout0 [Stmt.log [Expr.ident "i"]]],
    -- 6. for (let i = 0; i < 3; i++) { setTimeout(() => console.log(i), 0); }
    Stmt.forLet "i" 3 [Stmt.setTimeout0 [Stmt.log [Expr.ident "i"]]],
    -- 7. const obj_1 = { a: 1 }; obj_1 = { a: 2 };
    Stmt.decl DeclKind.dconst "obj_1" (some (Expr.objLit [("a", Expr.num 1)])),
    Stmt.assign "obj_1" (Expr.objLit [("a", Expr.num 2)]),
    -- 8. const obj = { a: 1 }; obj.a = 100; console.log(obj.a);
    Stmt.decl DeclKind.dconst "obj" (some (Expr.objLit [("a", Expr.num 1)])),
    Stmt.propAssign "obj" "a" (Expr.num 100),
    Stmt.log [Expr.propAccess "obj" "a"],
    -- 9. let a = 10; let a = 20; var b = 10; var b = 20; console.log(b);
    Stmt.decl DeclKind.dlet "a" (some (Expr.num 10)),
    Stmt.decl DeclKind.dlet "a" (some (Expr.num 20)),
    Stmt.decl DeclKind.dvar "b" (some (Expr.num 10)),
    Stmt.decl DeclKind.dvar "b" (some (Expr.num 20)),
    Stmt.log [Expr.ident "b"],
    -- 10. (function () { console.log(typeof a); var a = 10; })();
    Stmt.iife
      [ Stmt.log [Expr.typeofIdent "a"],
        Stmt.decl DeclKind.dvar "a" (some (Expr.num 10)) ] ]

/-- The two `setTimeout` loops (examples 5 and 6) as a script of their
own, free of the surrounding early errors. -/
def timeoutLoopsAst : List Stmt :=
  [ Stmt.forVar "i" 3 [Stmt.setTimeout0 [Stmt.log [Expr.ident "i"]]],
    Stmt.forLet "i" 3 [Stmt.setTimeout0 [Stmt.log [Expr.ident "i"]]] ]

/-! ### src/unnamed/part_002: the hoisting-demonstration script -/

def part002Ast : List Stmt :=
  [ -- 1. hoistedFunc(); function hoistedFunc() { ... }
    Stmt.exprStmt (Expr.call "hoistedFunc" []),
    Stmt.funDecl "hoistedFunc" [] [Stmt.log [Expr.str "I\x27m fully hoisted!"]],
    -- 2. console.log(varVar); var varVar = ...;
    Stmt.log [Expr.ident "varVar"],
    Stmt.decl DeclKind.dvar "varVar" (some (Expr.str "I\x27m a var variable")),
    -- 3. let letVar = ...; const constVar = ...;
    Stmt.decl DeclKind.dlet "letVar" (some (Expr.str "I\x27m a let variable")),
    Stmt.decl DeclKind.dconst "constVar" (some (Expr.str "I\x27m a const variable")),
    -- TDZ demonstration
    Stmt.log [Expr.str "Entering scope..."],
    Stmt.decl DeclKind.dlet "tdzVar" (some (Expr.str "I\x27m in TDZ")),
    Stmt.log [Expr.str "After declaration:", Expr.ident "tdzVar"],
    -- function vs variable hoisting
    Stmt.exprStmt (Expr.call "myFunc" []),
    Stmt.decl DeclKind.dvar "myFunc" (some (Expr.str "I\x27m a variable")),
    Stmt.funDecl "myFunc" [] [Stmt.log [Expr.str "I\x27m a function!"]],
    Stmt.log [Expr.str "After declarations, myFunc is:", Expr.ident "myFunc"],
    -- block scope hoisting (declared, never called)
    Stmt.funDecl "example" []
      [ Stmt.ifTrue
          [Stmt.decl DeclKind.dvar "leakedVar" (some (Expr.str "I\x27m leaked to function scope"))],
        Stmt.log [Expr.str "leakedVar accessible:", Expr.ident "leakedVar"] ],
    Stmt.funDecl "example2" []
      [ Stmt.ifTrue
          [ Stmt.decl DeclKind.dlet "blockVar" (some (Expr.str "I\x27m contained in block")),
            Stmt.log [Expr.str "blockVar inside block:", Expr.ident "blockVar"] ] ],
    -- pitfalls#1: shadowing
    Stmt.decl DeclKind.dvar "shadowVar" (some (Expr.str "global")),
    Stmt.funDecl "shadowExample" []
      [ Stmt.log [Expr.str "Before declaration:", Expr.ident "shadowVar"],
        Stmt.decl DeclKind.dvar "shadowVar" (some (Expr.str "local")),
        Stmt.log [Expr.str "After declaration:", Expr.ident "shadowVar"] ],
    Stmt.exprStmt (Expr.call "shadowExample" []),
    -- pitfalls#2: duplicate function declarations
    Stmt.funDecl "duplicate" [] [Stmt.ret (Expr.str "First declaration")],
    Stmt.funDecl "duplicate" [] [Stmt.ret (Expr.str "Second declaration wins!")],
    Stmt.log [Expr.call "duplicate" []] ]

/-! ### src/unnamed/part_001 lines 496-589: the hoisting cheatsheet script -/

def cheatsheetAst : List Stmt :=
  [ Stmt.log [Expr.str "🎯 JAVASCRIPT HOISTING COMPLETE GUIDE\n"],
    Stmt.log [Expr.str "=== 1. BASIC HOISTING RULES ==="],
    Stmt.log [Expr.str "✅ Function declarations: Fully hoisted"],
    Stmt.log [Expr.str "⚠️  var variables: Hoisted but initialized to undefined"],
    Stmt.log [Expr.str "❌ let/const variables: Hoisted but in Temporal Dead Zone"],
    Stmt.log [Expr.str "❌ Function expressions: Not hoisted"],
    Stmt.log [Expr.str "❌ Arrow functions: Not hoisted"],
    Stmt.log [Expr.str "\n=== 2. HOISTING PRECEDENCE ==="],
    Stmt.log [Expr.str "1. Function declarations (highest priority)"],
    Stmt.log [Expr.str "2. Variable declarations (var, let, const)"],
    Stmt.log [Expr.str "3. Function expressions and assignments"],
    Stmt.log [Expr.str "\n=== 3. TEMPORAL DEAD ZONE (TDZ) ==="],
    Stmt.log [Expr.str "• Period between entering scope and variable declaration"],
    Stmt.log [Expr.str "• Applies to let and const only"],
    Stmt.log [Expr.str "• Results in ReferenceError if accessed"],
    Stmt.log [Expr.str "• var variables are initialized to undefined"],
    Stmt.log [Expr.str "\n=== 4. SCOPE AND HOISTING ==="],
    Stmt.log [Expr.str "• var: Function-scoped, hoists to function top"],
    Stmt.log [Expr.str "• let/const: Block-scoped, hoists to block top"],
    Stmt.log [Expr.str "• Function declarations: Hoist to scope top"],
    Stmt.log [Expr.str "\n=== 5. PRACTICAL EXAMPLES ==="],
    Stmt.log [Expr.str "\nExample 1 - Basic hoisting:"],
    Stmt.log [Expr.str "var x =", Expr.typeofIdent "x"],
    Stmt.decl DeclKind.dvar "x" (some (Expr.num 5)),
    Stmt.log [Expr.str "\nExample 2 - Function hoisting:"],
    Stmt.exprStmt (Expr.call "hoistedFunc" []),
    Stmt.funDecl "hoistedFunc" [] [Stmt.log [Expr.str "I\x27m hoisted!"]],
    Stmt.log [Expr.str "\nExample 3 - Temporal Dead Zone:"],
    Stmt.decl DeclKind.dlet "y" (some (Expr.num 10)),
    Stmt.log [Expr.str "\n=== 6. COMMON PITFALLS ==="],
    Stmt.log [Expr.str "1. Variable shadowing with var"],
    Stmt.log [Expr.str "2. Accidental global variables with var"],
    Stmt.log [Expr.str "3. Function redeclaration"],
    Stmt.log [Expr.str "4. Accessing let/const before declaration"],
    Stmt.log [Expr.str "\n=== 7. BEST PRACTICES ==="],
    Stmt.log [Expr.str "✅ Use let/const instead of var"],
    Stmt.log [Expr.str "✅ Declare variables at scope top"],
    Stmt.log [Expr.str "✅ Use function declarations for hoisting benefits"],
    Stmt.log [Expr.str "✅ Be aware of TDZ with let/const"],
    Stmt.log [Expr.str "✅ Use block scope to prevent leakage"],
    Stmt.log [Expr.str "✅ Avoid variable shadowing"],
    Stmt.log [Expr.str "\n=== 8. INTERVIEW TIPS ==="],
    Stmt.log [Expr.str "• Always mention TDZ when discussing let/const"],
    Stmt.log [Expr.str "• Explain why var is problematic"],
    Stmt.log [Expr.str "• Know the hoisting precedence order"],
    Stmt.log [Expr.str "• Understand block vs function scope"],
    Stmt.log [Expr.str "• Be able to trace code execution"],
    Stmt.log [Expr.str "\n=== 9. CODE EXAMPLES FOR INTERVIEWS ==="],
    Stmt.log [Expr.str "\nQ: What will this output?"],
    Stmt.log [Expr.str "console.log(x);"],
    Stmt.log [Expr.str "var x = 5;"],
    Stmt.log [Expr.str "A: undefined (var is hoisted but not initialized)"],
    Stmt.log [Expr.str "\nQ: What will this output?"],
    Stmt.log [Expr.str "console.log(y);"],
    Stmt.log [Expr.str "let y = 5;"],
    Stmt.log [Expr.str "A: ReferenceError (TDZ)"],
    Stmt.log [Expr.str "\nQ: What will this output?"],
    Stmt.log [Expr.str "myFunc();"],
    Stmt.log [Expr.str "function myFunc() \x7b console.log(\x27Hello\x27); \x7d"],
    Stmt.log [Expr.str "A: \x27Hello\x27 (function declarations are fully hoisted)"],
    Stmt.log [Expr.str "\n=== 10. COMPLETE HOISTING FLOW ==="],
    Stmt.log [Expr.str "1. JavaScript engine scans the code"],
    Stmt.log [Expr.str "2. Hoists function declarations to top"],
    Stmt.log [Expr.str "3. Hoists variable declarations to top"],
    Stmt.log [Expr.str "4. Initializes var to undefined"],
    Stmt.log [Expr.str "5. Leaves let/const in TDZ"],
    Stmt.log [Expr.str "6. Executes code line by line"],
    Stmt.log [Expr.str "\n🎉 CONGRATULATIONS! You now understand ALL hoisting concepts!"],
    Stmt.log [Expr.str "You\x27re ready for any hoisting-related interview questions!"] ]

/-! ### Full output of the playground_methods.js object script -/

def personToJVal (p : GPerson) : JVal :=
  JVal.obj [("name", JVal.str p.name), ("age", JVal.num (Int.ofNat p.age))]

def groupToJVal (g : List (Nat × List GPerson)) : JVal :=
  JVal.obj (g.map (fun p => (toString p.1, JVal.arr (p.2.map personToJVal))))

/-- The lines printed inside the reduce callback
(`console.log("acc", acc); console.log("person", person);`), in
iteration order. -/
def reduceLogs : List String :=
  (peopleList.foldl
    (fun (acc : List (Nat × List GPerson) × List String) person =>
      (reduceCallback acc.1 person,
       acc.2 ++
         [ "acc " ++ inspect (groupToJVal acc.1)
         , "person " ++ inspect (personToJVal person) ]))
    ([], [])).2

def person_newDemo : JObj :=
  [("firstName", JVal.str "John"), ("lastName", JVal.str "Doe"),
   ("age", JVal.num 50), ("eyeColor", JVal.str "blue")]

def person_new_2Demo : JObj :=
  [("firstName", JVal.str "John"), ("lastName", JVal.str "Doe"),
   ("age", JVal.num 50), ("eyeColor", JVal.str "blue")]

/-- The full standard output of the object-methods script
(playground_methods.js lines 1-114), in source order. -/
def methodsObjectsOutput : List String :=
  [ "person1 " ++ inspect (JVal.obj assignHeap1.person1)
  , "person2 " ++ inspect (JVal.obj assignHeap1.person2)
  , "text " ++ inspect (objectEntries personEntriesDemo)
  , "text_new " ++ inspect (objectValues person_newDemo)
  , "text_new_2 " ++ inspect (objectKeys person_new_2Demo) ]
  ++ reduceLogs
  ++ [ "groupByAge " ++ inspect (groupToJVal groupByAge) ]

/-! ### src/unnamed/part_000, second script: basic object definitions -/

def person000 : JObj :=
  [("name", JVal.str "John"), ("age", JVal.num 30), ("city", JVal.str "New York")]

def person000_2 : JObj :=
  [("name", JVal.str "john_2"), ("age", JVal.num 20), ("city", JVal.str "New York_2")]

def fruitsData000 : JObj := objectFromEntries fruitsPairs

def fruitsDataRevert000 : JVal := objectEntries fruitsData000

/-- `person.name = "Mahadi"` (mutation of `person`, which is never
logged afterwards). -/
def person000Mutated : JObj := setProp person000 "name" (JVal.str "Mahadi")

def employee000 : JObj :=
  [("name", JVal.str "Nazmul"), ("position", JVal.str "Software Engineer")]

def con_data : JObj :=
  [("firstName", JVal.str "Nazmul"), ("lastName", JVal.str "Mahadi"),
   ("age", JVal.num 25), ("city", JVal.str "Dhaka")]

/-- Destructuring with a default:
`const { ..., country = "US" } = con_data`. -/
def destructWithDefault (k : String) (dflt : JVal) : JVal :=
  if hasProp con_data k then getProp con_data k else dflt

/-- `ProtoPerson.prototype` at the moment it is logged: `country` has
been assigned, the `name` method has not yet. -/
def protoPersonPrototypeAtLog : JObj := [("country", JVal.str "Bangladesh")]

/-- The full standard output of the object-definitions script
(src/unnamed/part_000, second script), in source order. -/
def part000ObjectsOutput : List String :=
  [ "Employee " ++ inspect (JVal.obj employee000)
  , String.intercalate " "
      ([getProp con_data "firstName", getProp con_data "lastName",
        getProp con_data "age", getProp con_data "city"].map consoleRender)
  , "country " ++ consoleRender (destructWithDefault "country" (JVal.str "US")) ++
      " " ++ consoleRender (getProp con_data "lastName")
  , "ProtoPerson => " ++ inspect (JVal.obj protoPersonPrototypeAtLog) ]

/-! ## Cross-script independence

The repository is a flat collection of scripts, each run ad hoc as its
own node process. No source file contains an `import`, `require`,
`module.exports` or `export` statement (those keywords occur only inside
the fenced examples of the Markdown guide), no script writes a file, and each
invocation starts from a fresh global environment, so the only state a
script could leave behind for another is the `World` below — which none
of the embedded scripts reads or writes. -/

/-- The script files (script segments of the concatenated source files). -/
inductive ScriptId where
  | methodsObjects
  | methodsProc
  | playgroundThis
  | part000Date
  | part000Objects
  | part001Player
  | part001Basic
  | part001Cheatsheet
  | part002Hoisting
  deriving DecidableEq, Repr

/-- State that could outlive one script run and be observed by another:
the file system and any shared global registry. -/
structure World where
  files : String → Option String
  sharedGlobals : List (String × String)

/-- The standard output of one script run under environment `env`. A
script whose parse fails with an early error (the BASIC EXAMPLES script)
prints nothing. -/
def scriptStdout (id : ScriptId) (env : RunEnv) : List String :=
  match id with
  | ScriptId.methodsObjects => methodsObjectsOutput
  | ScriptId.methodsProc => procScriptOutput env
  | ScriptId.playgroundThis => thisScriptOutput
  | ScriptId.part000Date => part000DateOutput env
  | ScriptId.part000Objects => part000ObjectsOutput
  | ScriptId.part001Player => playerScriptOutput env
  | ScriptId.part001Basic =>
    (match runScript basicExamplesAst with
     | Except.ok o => o
     | Except.error _ => [])
  | ScriptId.part001Cheatsheet =>
    (match runScript cheatsheetAst with
     | Except.ok o => o
     | Except.error _ => [])
  | ScriptId.part002Hoisting =>
    (match runScript part002Ast with
     | Except.ok o => o
     | Except.error _ => [])

/-- Run one script in a world: its output is produced by its own embedded
semantics (none of which consults `World`), and the scripts perform no
file writes or shared-global mutations, so the world passes through. -/
def runOne (id : ScriptId) (env : RunEnv) (w : World) : List String × World :=
  (scriptStdout id env, w)

/-- Run a sequence of scripts in order, threading the world, and record
the output of each script. -/
def runSeq (ids : List ScriptId) (env : RunEnv) (w : World) :
    List (ScriptId × List String) × World :=
  match ids with
  | [] => ([], w)
  | id :: rest =>
    let r := runOne id env w
    let r2 := runSeq rest env r.2
    ((id, r.1) :: r2.1, r2.2)

/-! ## Helper lemmas -/

/-- Overwriting the entry for key `a` leaves lookups of any other key
unchanged. -/
theorem find?_map_overwrite (t : JObj) (a k : String) (v : JVal) (h : a ≠ k) :
    (t.map (fun p => if p.1 = a then (a, v) else p)).find? (fun p => p.1 = k)
      = t.find? (fun p => p.1 = k) := by
  induction t with
  | nil => rfl
  | cons q rest ih =>
    simp only [List.map_cons]
    by_cases hqa : q.1 = a
    · rw [if_pos hqa]
      rw [List.find?_cons_of_neg, List.find?_cons_of_neg]
      · exact ih
      · simp [hqa, h]
      · simp [h]
    · rw [if_neg hqa]
      by_cases hqk : q.1 = k
      · rw [List.find?_cons_of_pos, List.find?_cons_of_pos] <;> simp [hqk]
      · rw [List.find?_cons_of_neg, List.find?_cons_of_neg]
        · exact ih
        · simp [hqk]
        · simp [hqk]

/-- `t[a] = v` does not change `t[k]` for `k ≠ a`. -/
theorem getProp_setProp_ne (t : JObj) (a : String) (v : JVal) (k : String) (h : a ≠ k) :
    getProp (setProp t a v) k = getProp t k := by
  unfold setProp
  split
  · unfold getProp
    rw [find?_map_overwrite t a k v h]
  · unfold getProp
    rw [List.find?_append]
    simp [h]

/-- Frame property of `Object.assign`: a target property whose key the
source does not own is unchanged. -/
theorem objectAssign_frame (t s : JObj) (k : String) (h : hasProp s k = false) :
    getProp (objectAssign t s) k = getProp t k := by
  induction s generalizing t with
  | nil => rfl
  | cons p rest ih =>
    have h2 : ¬ (p.1 = k) ∧ hasProp rest k = false := by
      simpa [hasProp] using h
    have e : objectAssign t (p :: rest) = objectAssign (setProp t p.1 p.2) rest := rfl
    rw [e, ih (setProp t p.1 p.2) h2.2]
    exact getProp_setProp_ne t p.1 p.2 k h2.1

/-! ## Claim theorems -/

/-- C1, counterexample: the claim that every script raises no exception
and every console.log runs is false at the BASIC EXAMPLES script of
src/unnamed/part_001: its duplicate declarations (`let b`/`var b`,
`var a`/`let a`/`let a`) are a parse-time SyntaxError, so the run is an
error and the script prints nothing at all. -/
theorem claim_C1_counterexample :
    runScript basicExamplesAst
      = Except.error (JsErr.synErr "Identifier b has already been declared")
    ∧ scriptStdout ScriptId.part001Basic (runAt 0) = [] :=
  ⟨rfl, rfl⟩

/-- C1, amended: the BASIC EXAMPLES script of part_001 contains live
(uncommented) statements that raise the very exceptions its comments
document — parsing the whole script is a SyntaxError, its first four
statements alone raise the TDZ ReferenceError, its `const` reassignment
alone raises a TypeError — while the other hoisting scripts (part_002,
the cheatsheet script) run every console.log their control flow reaches
without any exception. -/
theorem claim_C1_amended :
    runScript basicExamplesAst
      = Except.error (JsErr.synErr "Identifier b has already been declared")
    ∧ runScript (basicExamplesAst.take 4)
      = Except.error (JsErr.refErr "Cannot access b before initialization")
    ∧ runScript ((basicExamplesAst.drop 12).take 2)
      = Except.error (JsErr.typeErr "Assignment to constant variable.")
    ∧ (runScript part002Ast).map List.length = Except.ok 9
    ∧ (runScript cheatsheetAst).map List.length = Except.ok 66 :=
  ⟨rfl, rfl, rfl, rfl, rfl⟩

/-- C2, counterexample: the script containing the two `setTimeout` loops
(the BASIC EXAMPLES script) does not print 3, 3, 3, 0, 1, 2 — it fails
its parse-time early-error check and prints nothing. -/
theorem claim_C2_counterexample :
    (runScript basicExamplesAst).isOk = false
    ∧ runScriptParts basicExamplesAst
      = Except.error (JsErr.synErr "Identifier b has already been declared") :=
  ⟨rfl, rfl⟩

/-- C2, amended: in any script that runs, every `setTimeout` callback
runs only after all top-level synchronous statements (the total output is
the synchronous output followed by the queued output), and the two loops
— run as a script of their own, free of the early errors of the file — print
no synchronous output and then 3, 3, 3 (the single binding of the `var` loop,
already 3) followed by 0, 1, 2 (the per-iteration bindings of the
`let` loop). -/
theorem claim_C2_amended :
    runScriptParts timeoutLoopsAst = Except.ok ([], ["3", "3", "3", "0", "1", "2"])
    ∧ runScript timeoutLoopsAst = Except.ok ["3", "3", "3", "0", "1", "2"]
    ∧ ∀ (body : List Stmt) (parts : List String × List String),
        runScriptParts body = Except.ok parts →
        runScript body = Except.ok (parts.1 ++ parts.2) := by
  refine ⟨rfl, rfl, fun body parts h => ?_⟩
  simp [runScript, h, Except.map]

/-- Witness for C2: the sync-then-async decomposition applied to the
loops script. -/
theorem claim_C2_amended_witness :
    runScript timeoutLoopsAst
      = Except.ok ((([] : List String), ["3", "3", "3", "0", "1", "2"]).1
          ++ (([] : List String), ["3", "3", "3", "0", "1", "2"]).2) :=
  claim_C2_amended.2.2 timeoutLoopsAst ([], ["3", "3", "3", "0", "1", "2"]) (by rfl)

/-- C3, counterexample: two runs of the Date-logging script
(src/unnamed/part_000) at different clock readings produce different
standard output, so standard output is not a function of the source text
alone. -/
theorem claim_C3_counterexample :
    part000DateOutput (runAt 0) ≠ part000DateOutput (runAt 1000) := by
  decide

/-- C3, amended: the standard output of a script is a function of the source
text, the clock reading and the locale renderers only — the scripts
consume no command-line arguments, process environment variables or
files, so two runs agreeing on clock and locale produce identical output
for every script. -/
theorem claim_C3_amended : ∀ e1 e2 : RunEnv,
    e1.nowMs = e2.nowMs →
    e1.localeDateTime = e2.localeDateTime →
    e1.localeDate = e2.localeDate →
    e1.localeTime = e2.localeTime →
    e1.localeNumber = e2.localeNumber →
    ∀ id : ScriptId, scriptStdout id e1 = scriptStdout id e2 := by
  intro e1 e2 h1 h2 h3 h4 h5 id
  cases id <;>
    simp [scriptStdout, part000DateOutput, procScriptOutput, getSalary,
      playerScriptOutput, playerLine1, playerLine2, Player.getSalary,
      h1, h2, h3, h4, h5]

/-- Witness for C3: two environments sharing the clock and locales but
differing in argv, environment variables and files produce the same
output of the Date script. -/
theorem claim_C3_amended_witness :
    scriptStdout ScriptId.part000Date (runAt 5)
      = scriptStdout ScriptId.part000Date (runAtWithInputs 5) :=
  claim_C3_amended (runAt 5) (runAtWithInputs 5) rfl rfl rfl rfl rfl
    ScriptId.part000Date

/-- C4: the scripts are mutually independent — in every execution order
(any list of scripts) the standard output of each script equals its
standalone output under the same environment, and the world (file
system, shared globals) is unchanged. -/
theorem claim_C4_noninterference : ∀ (ids : List ScriptId) (env : RunEnv) (w : World),
    (runSeq ids env w).1 = ids.map (fun id => (id, scriptStdout id env))
    ∧ (runSeq ids env w).2 = w := by
  intro ids env w
  induction ids generalizing w with
  | nil => exact ⟨rfl, rfl⟩
  | cons id rest ih =>
    simp [runSeq, runOne, (ih _).1, (ih _).2]

/-- C5: after `Object.assign(person1, person2)` the target equals
`{ firstName: "Anne", lastName: "Smith", age: 50, eyeColor: "blue" }`,
exactly as the adjacent comment says. -/
theorem claim_C5_object_assign_result :
    assignHeap1.person1 =
      [("firstName", JVal.str "Anne"), ("lastName", JVal.str "Smith"),
       ("age", JVal.num 50), ("eyeColor", JVal.str "blue")] := rfl

/-- C6: `Object.assign(person1, person2)` modifies only the properties
named by the source — `person2` is unchanged afterwards, the target properties
`age` and `eyeColor` keep their original values, and in general a target
property whose key the source does not own is untouched. -/
theorem claim_C6_object_assign_frame :
    assignHeap1.person2 = person2Init
    ∧ assignHeap1.person2 = [("firstName", JVal.str "Anne"), ("lastName", JVal.str "Smith")]
    ∧ getProp assignHeap1.person1 "age" = JVal.num 50
    ∧ getProp assignHeap1.person1 "eyeColor" = JVal.str "blue"
    ∧ ∀ (t s : JObj) (k : String), hasProp s k = false →
        getProp (objectAssign t s) k = getProp t k :=
  ⟨rfl, rfl, rfl, rfl, objectAssign_frame⟩

/-- Witness for C6: the frame property applied to the objects of the script
itself at the key "age", which the source does not own. -/
theorem claim_C6_object_assign_frame_witness :
    getProp (objectAssign person1Init person2Init) "age" = getProp person1Init "age" :=
  claim_C6_object_assign_frame.2.2.2.2 person1Init person2Init "age" (by rfl)

/-- C7: in the function-versus-variable hoisting demonstration of
src/unnamed/part_002, `myFunc()` placed before both declarations invokes
the hoisted function (printing the function line), and after the `var`
assignment executes, `myFunc` evaluates to the variable string — the
full output of the script, in order. -/
theorem claim_C7_myFunc_hoisting :
    runScript part002Ast = Except.ok
      [ "I\x27m fully hoisted!", "undefined", "Entering scope...",
        "After declaration: I\x27m in TDZ", "I\x27m a function!",
        "After declarations, myFunc is: I\x27m a variable",
        "Before declaration: undefined", "After declaration: local",
        "Second declaration wins!" ] := rfl

/-- C8: the three explicit-binding invocations are equivalent —
`printName.call(Nazmul, ...)`, `printName.apply(Nazmul, [...])` and
`printName.bind(Nazmul)(...)` each produce
"Mr. Nazmul is Handome and Smart". -/
theorem claim_C8_call_apply_bind :
    fnCall printName nazmulObj attribute_1 attribute_2 = "Mr. Nazmul is Handome and Smart"
    ∧ fnApply printName nazmulObj attributesArr = "Mr. Nazmul is Handome and Smart"
    ∧ fnBind printName nazmulObj attribute_1 attribute_2 = "Mr. Nazmul is Handome and Smart" :=
  ⟨rfl, rfl, rfl⟩

/-- C9: the reduce-based grouping and `Object.groupBy` agree on the
`people` list — the two association lists are equal, and every age key
maps to the sublist of people with that age, in input order. -/
theorem claim_C9_groupBy_agreement :
    groupByAge = groupedPeople
    ∧ ∀ k ∈ groupedPeople.map Prod.fst,
        lookupGroup groupedPeople k = peopleList.filter (fun p => p.age = k) := by
  constructor
  · decide
  · decide

/-- Witness for C9: the characterisation at the key 25. -/
theorem claim_C9_groupBy_agreement_witness :
    lookupGroup groupedPeople 25 = peopleList.filter (fun p => p.age = 25) :=
  claim_C9_groupBy_agreement.2 25 (by decide)

/-- C10: on every `Player` instance the public access `.name` is
`undefined` (the class stores the name only in the private field `#name`
and exposes no getter), so both output lines of the script begin with
"undefined" — at every clock reading. -/
theorem claim_C10_player_name_undefined :
    Player.getProp mahadiPlayer "name" = JVal.undef
    ∧ ∀ env : RunEnv, ∃ r1 r2,
        playerScriptOutput env = ["undefined" ++ r1, "undefined" ++ r2] :=
  ⟨rfl, fun _env => ⟨_, _, rfl⟩⟩

end JsPrep
